import Mathlib

/-!
Verification development for the ts-test-runner repository
(Vite + Jasmine browser/Node test runner).

The definitions below are a shallow embedding of the relevant parts of
src/index.ts (the authoritative single-file implementation; the split
variant in the unnamed sources mirrors the same logic):

* `ConsoleReporter` with `jasmineStarted`, `specDone`, `jasmineDone`
  and `testsAborted` (src/index.ts lines 14-148);
* the WebSocket relay `handleWebSocketMessage` and the close handler of
  `createWebSocketServer` on the orchestrator state
  (src/index.ts lines 212-289);
* `cleanup` (src/index.ts lines 968-980);
* the `start` orchestration sequence with its environment-dependent
  branches, modelled as an effect trace plus an optional exit code
  (src/index.ts lines 697-743 and 982-1058).

Printing to stdout is modelled as an `output` list of the strings passed
to `print`; `console.log` / `console.warn` / `console.error` calls that
carry decision-relevant information are modelled as log effects or
`warnings` entries. JavaScript float formatting (division by 1000 and
toFixed on the total time) is abstracted: times stay natural numbers in
milliseconds. JavaScript field access on a possibly-null value is
modelled with `Option` arguments and `Except`-returning wrappers, since
reading a property of null throws a TypeError at runtime.
-/

/-- A Jasmine expectation record; only its `message` field is read by the
reporter (src/index.ts line 82). -/
structure Expectation where
  message : String
  deriving Repr, DecidableEq

/-- The spec-result object handed to `ConsoleReporter.specDone`. Fields
that may be absent (undefined) on the wire are `Option`s. -/
structure SpecResult where
  id : Option String := none
  description : Option String := none
  fullName : Option String := none
  status : Option String := none
  passedExpectations : List Expectation := []
  failedExpectations : List Expectation := []
  pendingReason : Option String := none
  duration : Nat := 0
  deriving Repr, DecidableEq

/-- The result object handed to `ConsoleReporter.jasmineDone`. -/
structure DoneResult where
  totalTime : Nat := 0
  overallStatus : Option String := none
  incompleteReason : Option String := none
  order : Option String := none
  deriving Repr, DecidableEq

/-- Argument of `ConsoleReporter.jasmineStarted`; the method reads no
field of it (src/index.ts lines 40-47). -/
structure StartedOptions where
  totalSpecsDefined : Nat := 0
  deriving Repr, DecidableEq

/-- State of the `ConsoleReporter` class (src/index.ts lines 14-38).
`showColors` is set to `true` in the constructor and never changed, so it
is inlined. `output` collects the strings passed to `this.print`. -/
structure ConsoleReporter where
  specCount : Nat := 0
  executableSpecCount : Nat := 0
  failureCount : Nat := 0
  failedSpecs : List SpecResult := []
  pendingSpecs : List SpecResult := []
  output : List String := []
  deriving Repr, DecidableEq

/-- The `new ConsoleReporter()` constructor value (src/index.ts 24-38). -/
def newConsoleReporter : ConsoleReporter := {}

/-- The ANSI table of the reporter (src/index.ts line 32). -/
def ansiCode : String → String
  | "green" => "\x1B[32m"
  | "red" => "\x1B[31m"
  | "yellow" => "\x1B[33m"
  | _ => "\x1B[0m"

/-- `colored(color, str)` with `showColors = true` (src/index.ts 141-143). -/
def colored (color str : String) : String :=
  ansiCode color ++ str ++ ansiCode "none"

/-- `plural(str, count)` (src/index.ts 145-147). -/
def plural (str : String) (count : Nat) : String :=
  if count = 1 then str else str ++ "s"

/-- Rendering of a JS value interpolated into a template string: an
absent (undefined) string prints as "undefined". -/
def jsStr : Option String → String
  | some s => s
  | none => "undefined"

/-- `jasmineStarted(options)` (src/index.ts 40-47): resets every counter
and list and prints the running banner; `options` is never read. -/
def jasmineStarted (r : ConsoleReporter) (_options : StartedOptions) : ConsoleReporter :=
  { r with
    specCount := 0
    executableSpecCount := 0
    failureCount := 0
    failedSpecs := []
    pendingSpecs := []
    output := r.output ++ ["🏃 Executing tests...\n\n"] }

/-- `specDone(result)` (src/index.ts 49-68). The switch has no default
branch: a status other than passed/failed/pending leaves everything but
`specCount` untouched and prints nothing. -/
def specDone (r : ConsoleReporter) (result : SpecResult) : ConsoleReporter :=
  let r := { r with specCount := r.specCount + 1 }
  match result.status with
  | some "passed" =>
      { r with
        executableSpecCount := r.executableSpecCount + 1
        output := r.output ++ [colored "green" "."] }
  | some "failed" =>
      { r with
        failureCount := r.failureCount + 1
        failedSpecs := r.failedSpecs ++ [result]
        executableSpecCount := r.executableSpecCount + 1
        output := r.output ++ [colored "red" "F"] }
  | some "pending" =>
      { r with
        pendingSpecs := r.pendingSpecs ++ [result]
        executableSpecCount := r.executableSpecCount + 1
        output := r.output ++ [colored "yellow" "*"] }
  | _ => r

/-- The numbered failure entries of `jasmineDone` (src/index.ts 78-85):
for each failed spec, its full name then each expectation message. The
`if length > 0` guard of the source equals mapping over an empty list. -/
def renderFailureLines : Nat → List SpecResult → List String
  | _, [] => []
  | i, spec :: rest =>
      ("  " ++ toString (i + 1) ++ ") " ++ jsStr spec.fullName ++ "\n") ::
      (spec.failedExpectations.map
        (fun e => "     " ++ colored "red" e.message ++ "\n") ++
       renderFailureLines (i + 1) rest)

/-- The numbered pending entries of `jasmineDone` (src/index.ts 91-96):
name, then the reason when it is truthy (present and nonempty). -/
def renderPendingLines : Nat → List SpecResult → List String
  | _, [] => []
  | i, spec :: rest =>
      ("  " ++ toString (i + 1) ++ ") " ++ jsStr spec.fullName ++ "\n") ::
      ((match spec.pendingReason with
        | some s => if s = "" then [] else ["     " ++ colored "yellow" s ++ "\n"]
        | none => []) ++
       renderPendingLines (i + 1) rest)

/-- The failures block of `jasmineDone` (src/index.ts 76-86). -/
def failuresSection (failedSpecs : List SpecResult) : List String :=
  if 0 < failedSpecs.length then
    "\n\n❌ Failures:\n\n" :: renderFailureLines 0 failedSpecs
  else []

/-- The pending block of `jasmineDone` (src/index.ts 89-97). -/
def pendingSection (failedSpecsPresent : Bool) (pendingSpecs : List SpecResult) : List String :=
  if 0 < pendingSpecs.length then
    ((if failedSpecsPresent then "\n" else "\n\n") ++ "⏸️  Pending specs:\n\n") ::
    renderPendingLines 0 pendingSpecs
  else []

/-- The summary block of `jasmineDone` (src/index.ts 100-112). The total
time is kept in milliseconds; the float division and toFixed formatting
are abstracted. -/
def summarySection (r : ConsoleReporter) (totalTime : Nat) : List String :=
  let failedSpecsPresent := 0 < r.failedSpecs.length
  let pendingSpecsPresent := 0 < r.pendingSpecs.length
  let specsText :=
    toString r.executableSpecCount ++ " " ++ plural "spec" r.executableSpecCount
  let failuresText :=
    toString r.failureCount ++ " " ++ plural "failure" r.failureCount
  let pendingText :=
    toString r.pendingSpecs.length ++ " " ++ plural "pending spec" r.pendingSpecs.length
  [(if failedSpecsPresent || pendingSpecsPresent then "\n" else "\n\n") ++ "📊 Summary: ",
   specsText,
   if 0 < r.failureCount then ", " ++ colored "red" failuresText
   else ", " ++ failuresText] ++
  (if 0 < r.pendingSpecs.length then [", " ++ colored "yellow" pendingText] else []) ++
  ["\n",
   "⏱️  Finished in " ++ toString totalTime ++ " " ++ plural "second" totalTime,
   "\n\n"]

/-- The overall-status block of `jasmineDone` (src/index.ts 114-131). -/
def statusSection (r : ConsoleReporter) (overallStatus : Option String) : List String :=
  if overallStatus = some "passed" then
    if r.pendingSpecs.length = 0 then
      [colored "green" "✅ All specs passed!\n"]
    else
      [colored "green" "✅ All specs passed! " ++
       colored "yellow" ("(with " ++ toString r.pendingSpecs.length ++ " pending)\n")]
  else if overallStatus = some "failed" then
    [colored "red" ("❌ " ++ toString r.failureCount ++ " " ++
      plural "spec" r.failureCount ++ " failed\n")]
  else if overallStatus = some "incomplete" then
    [colored "red" "⚠️ Tests could not be run (incomplete)\n"]
  else
    [colored "red" ("⚠️ Unknown test status: " ++ jsStr overallStatus ++ "\n")]

/-- `jasmineDone(result)` on a non-null result (src/index.ts 70-134):
renders failures, pending specs, summary and status, and returns
`this.failureCount`, which the body never modifies. -/
def jasmineDoneOk (r : ConsoleReporter) (result : DoneResult) : ConsoleReporter × Nat :=
  let failedSpecsPresent := 0 < r.failedSpecs.length
  ({ r with
     output := r.output
       ++ failuresSection r.failedSpecs
       ++ pendingSection failedSpecsPresent r.pendingSpecs
       ++ summarySection r result.totalTime
       ++ statusSection r result.overallStatus },
   r.failureCount)

/-- `testsAborted(message?)` (src/index.ts 136-139); the `message ?`
check is JS truthiness, so an empty string renders like an absent one. -/
def testsAborted (r : ConsoleReporter) (message : Option String) : ConsoleReporter :=
  { r with
    output := r.output ++
      ["\n\n",
       colored "red" ("❌ Tests aborted" ++
         (match message with
          | some m => if m = "" then "" else ": " ++ m
          | none => "") ++ "\n")] }

/-- JS-call wrapper for `specDone`: invoking it with a null/undefined
result throws a TypeError at `result.status` (src/index.ts line 51). -/
def specDoneJS (r : ConsoleReporter) (result : Option SpecResult) :
    Except String ConsoleReporter :=
  match result with
  | none => .error "TypeError: cannot read property status of null"
  | some res => .ok (specDone r res)

/-- JS-call wrapper for `jasmineDone`: line 71 guards a null result, but
line 114 reads `result.overallStatus` unguarded, so a null/undefined
result throws a TypeError there (after part of the summary printed; the
partial output of the throwing call is not tracked). -/
def jasmineDoneJS (r : ConsoleReporter) (result : Option DoneResult) :
    Except String (ConsoleReporter × Nat) :=
  match result with
  | none => .error "TypeError: cannot read property overallStatus of null"
  | some res => .ok (jasmineDoneOk r res)

/-- JS-call wrapper for `jasmineStarted`: it reads no field of its
argument, so a null argument is harmless. -/
def jasmineStartedJS (r : ConsoleReporter) (options : Option StartedOptions) :
    Except String ConsoleReporter :=
  .ok (jasmineStarted r (options.getD {}))

/-- JS-call wrapper for `testsAborted`: the only use of `message` is a
truthiness check, so any argument is harmless. -/
def testsAbortedJS (r : ConsoleReporter) (message : Option String) :
    Except String ConsoleReporter :=
  .ok (testsAborted r message)

/-- A wire message arriving on the WebSocket relay channel
(src/index.ts 242-289; the JSON payload is permissive, so every field is
optional). `failedExpectations` entries carry a `message`. -/
structure WsMessage where
  type : Option String := none
  totalSpecs : Option Nat := none
  id : Option String := none
  description : Option String := none
  fullName : Option String := none
  status : Option String := none
  passedExpectations : Option (List Expectation) := none
  failedExpectations : Option (List Expectation) := none
  pendingReason : Option String := none
  duration : Option Nat := none
  totalTime : Option Nat := none
  overallStatus : Option String := none
  incompleteReason : Option String := none
  order : Option String := none
  deriving Repr, DecidableEq

/-- JS `x || null` on a string-valued field: an empty string is falsy
and collapses to null. -/
def jsOrNull : Option String → Option String
  | some "" => none
  | x => x

/-- The spec-result object the relay builds for `specDone`
(src/index.ts 257-266). -/
def toSpecResult (m : WsMessage) : SpecResult :=
  { id := m.id
    description := m.description
    fullName := m.fullName
    status := m.status
    passedExpectations := m.passedExpectations.getD []
    failedExpectations := m.failedExpectations.getD []
    pendingReason := jsOrNull m.pendingReason
    duration := m.duration.getD 0 }

/-- The done-result object the relay builds for `jasmineDone`
(src/index.ts 271-276); `overallStatus` defaults to "complete" through
JS `||`, so an empty string also becomes "complete". -/
def toDoneResult (m : WsMessage) : DoneResult :=
  { totalTime := m.totalTime.getD 0
    overallStatus :=
      some (match m.overallStatus with
            | some s => if s = "" then "complete" else s
            | none => "complete")
    incompleteReason := jsOrNull m.incompleteReason
    order := jsOrNull m.order }

/-- The mutable fields of `ViteJasminePreprocessor` that the relay, the
close handler and `cleanup` touch (src/index.ts 188-196). `server` and
`wss` record whether the corresponding reference is non-null; clients
are identified by numbers. `warnings` collects console warnings. -/
structure OrchestratorState where
  server : Bool := false
  wss : Bool := false
  wsClients : List Nat := []
  consoleReporter : Option ConsoleReporter := none
  testCompleted : Bool := false
  testSuccess : Bool := false
  warnings : List String := []
  deriving Repr, DecidableEq

/-- `handleWebSocketMessage(message)` (src/index.ts 242-289). A missing
reporter is replaced by a fresh one before the switch; the `done` branch
records completion and sets `testSuccess` to `failureCount === 0` with
the count returned by `jasmineDone`; an unrecognized `type` only logs a
warning. -/
def handleWebSocketMessage (s : OrchestratorState) (m : WsMessage) : OrchestratorState :=
  let reporter := s.consoleReporter.getD newConsoleReporter
  match m.type with
  | some "start" =>
      let reporter := jasmineStarted reporter { totalSpecsDefined := m.totalSpecs.getD 0 }
      { s with consoleReporter := some reporter }
  | some "specDone" =>
      { s with consoleReporter := some (specDone reporter (toSpecResult m)) }
  | some "done" =>
      let res := jasmineDoneOk reporter (toDoneResult m)
      { s with
        consoleReporter := some res.fst
        testCompleted := true
        testSuccess := res.snd == 0 }
  | _ =>
      { s with
        consoleReporter := some reporter
        warnings := s.warnings ++
          ["⚠️ Unknown WebSocket message type: " ++ jsStr m.type] }

/-- The `close` handler installed per connection (src/index.ts 231-233):
it only filters the closing client out of `wsClients`. -/
def handleClose (s : OrchestratorState) (ws : Nat) : OrchestratorState :=
  { s with wsClients := s.wsClients.filter (fun c => c != ws) }

/-- Observable side effects of the orchestration sequence. -/
inductive Effect where
  | mkdirOut
  | discoverFiles
  | viteBuild
  | genHtml
  | genRunner
  | startServer
  | waitReady
  | createReporter
  | checkBrowserEff
  | spawnChild
  | launchBrowser
  | closeWss
  | closeServer
  | log (msg : String)
  deriving Repr, DecidableEq

/-- `cleanup()` (src/index.ts 968-980): closes the WebSocket server and
the HTTP server when their references are non-null, nulls both, and
empties the client list. The pair's second component lists the release
effects the call performs. -/
def cleanup (s : OrchestratorState) : OrchestratorState × List Effect :=
  ({ s with wss := false, server := false, wsClients := [] },
   (if s.wss then [Effect.closeWss] else []) ++
   (if s.server then [Effect.closeServer] else []))

/-- The configuration fields the `start` branching reads. -/
structure RunConfig where
  headless : Bool
  browser : String
  deriving Repr, DecidableEq

/-- Outcomes of the external collaborators awaited during a run; these
decide which path `start` takes. `childExit = none` stands for the spawn
error event; `browserRun = none` stands for a throwing
`runHeadlessBrowserTests`, `browserRun = some b` for a normal return
whose value is `this.testSuccess = b`. -/
structure RunEnv where
  outDirExists : Bool := true
  testFilesFound : Bool := true
  buildOk : Bool := true
  serverReady : Bool := true
  browserType : Option String := none
  runnerExists : Bool := true
  interrupted : Bool := false
  childExit : Option Nat := some 0
  browserRun : Option Bool := some true
  deriving Repr, DecidableEq

/-- `process.exit(success ? 0 : 1)` (src/index.ts 1022, 1028, 1038). -/
def exitOfSuccess (success : Bool) : Nat := if success then 0 else 1

/-- `preprocess()` (src/index.ts 425-470): discovery, build, HTML
generation, and runner generation for the headless node mode. The
redundant out-dir existence check inside preprocess is always false here
because `start` created the directory first (src/index.ts 990-992).
Returns the effect trace and whether preprocessing succeeded. -/
def preprocess (cfg : RunConfig) (env : RunEnv) : List Effect × Bool :=
  if !env.testFilesFound then
    ([Effect.discoverFiles, Effect.log "❌ Preprocessing failed:"], false)
  else if !env.buildOk then
    ([Effect.discoverFiles, Effect.viteBuild, Effect.log "❌ Preprocessing failed:"], false)
  else
    ([Effect.discoverFiles, Effect.viteBuild, Effect.genHtml] ++
     (if cfg.headless && cfg.browser == "node" then [Effect.genRunner] else []),
     true)

/-- `runHeadlessTests()` (src/index.ts 697-743): checks for the
generated runner, spawns the node child process, and resolves `false` on
interruption or spawn error, else `code === 0`. -/
def runHeadlessTests (env : RunEnv) : List Effect × Bool :=
  if !env.runnerExists then
    ([Effect.log "❌ Test runner not found. Build may have failed."], false)
  else if env.interrupted then
    ([Effect.spawnChild, Effect.log "🛑 Tests aborted by user (Ctrl+C)"], false)
  else
    match env.childExit with
    | some code => ([Effect.spawnChild], code == 0)
    | none => ([Effect.spawnChild, Effect.log "❌ Failed to run headless tests:"], false)

/-- The release effects of the `cleanup()` calls inside `start`: on
those paths both the HTTP server and the WebSocket server exist. -/
def startCleanupEffects : List Effect := [Effect.closeWss, Effect.closeServer]

/-- `start()` (src/index.ts 982-1058) as an effect trace plus an
optional process exit code (`none` means `start` returns with the headed
server still running, or an awaited collaborator rejected and the CLI
wrapper at src/index.ts 1172-1175 exits 1, modelled as `some 1` below).
The four branches follow src/index.ts 1002-1057; the invalid
headed-node combination is only checked after the directory creation and
the build. -/
def start (cfg : RunConfig) (env : RunEnv) : List Effect × Option Nat :=
  let initEff : List Effect := if env.outDirExists then [] else [Effect.mkdirOut]
  let pre := preprocess cfg env
  if !pre.snd then
    (initEff ++ pre.fst ++ [Effect.log "❌ Build failed:"], some 1)
  else if cfg.headless && cfg.browser != "node" then
    let base := initEff ++ pre.fst ++ [Effect.startServer, Effect.waitReady]
    if !env.serverReady then
      -- waitForServerReady rejects; the CLI catch block exits 1
      (base ++ [Effect.log "❌ Failed to start test runner:"], some 1)
    else
      let base := base ++ [Effect.createReporter, Effect.checkBrowserEff]
      match env.browserType with
      | none =>
          let run := runHeadlessTests env
          (base ++
           [Effect.log "⚠️ Headless browser not available. Falling back to Node.js runner.",
            Effect.genRunner] ++ run.fst ++ startCleanupEffects,
           some (exitOfSuccess run.snd))
      | some _ =>
          match env.browserRun with
          | some success =>
              (base ++ [Effect.launchBrowser] ++ startCleanupEffects,
               some (exitOfSuccess success))
          | none =>
              (base ++ [Effect.launchBrowser,
                        Effect.log "❌ Browser test execution failed:"] ++
               startCleanupEffects, some 1)
  else if cfg.headless && cfg.browser == "node" then
    let run := runHeadlessTests env
    (initEff ++ pre.fst ++ run.fst, some (exitOfSuccess run.snd))
  else if !cfg.headless && cfg.browser == "node" then
    (initEff ++ pre.fst ++
     [Effect.log "❌ Invalid configuration: Node.js runner cannot run in headed mode."],
     some 1)
  else
    (initEff ++ pre.fst ++
     [Effect.startServer, Effect.log "⏹️  Press Ctrl+C to stop the server",
      Effect.launchBrowser], none)

/-- Helper: one `specDone` step appends the event to `failedSpecs`
exactly when its status is "failed". -/
theorem specDone_failedSpecs (r : ConsoleReporter) (e : SpecResult) :
    (specDone r e).failedSpecs =
      r.failedSpecs ++ (if e.status == some "failed" then [e] else []) := by
  unfold specDone
  split <;> simp_all

/-- Helper: one `specDone` step appends the event to `pendingSpecs`
exactly when its status is "pending". -/
theorem specDone_pendingSpecs (r : ConsoleReporter) (e : SpecResult) :
    (specDone r e).pendingSpecs =
      r.pendingSpecs ++ (if e.status == some "pending" then [e] else []) := by
  unfold specDone
  split <;> simp_all

/-- Helper: folding a sequence of spec results accumulates exactly the
"failed" ones, in delivery order. -/
theorem foldl_specDone_failedSpecs (es : List SpecResult) (r : ConsoleReporter) :
    (es.foldl specDone r).failedSpecs =
      r.failedSpecs ++ es.filter (fun e => e.status == some "failed") := by
  induction es generalizing r with
  | nil => simp
  | cons e es ih =>
      simp only [List.foldl_cons, List.filter_cons, ih, specDone_failedSpecs]
      by_cases he : e.status == some "failed" <;> simp [he]

/-- Helper: folding a sequence of spec results accumulates exactly the
"pending" ones, in delivery order. -/
theorem foldl_specDone_pendingSpecs (es : List SpecResult) (r : ConsoleReporter) :
    (es.foldl specDone r).pendingSpecs =
      r.pendingSpecs ++ es.filter (fun e => e.status == some "pending") := by
  induction es generalizing r with
  | nil => simp
  | cons e es ih =>
      simp only [List.foldl_cons, List.filter_cons, ih, specDone_pendingSpecs]
      by_cases he : e.status == some "pending" <;> simp [he]

/-- C5: for any sequence of specDone events delivered to the Reporter
after jasmineStarted, the failed-spec list held at jasmineDone is
exactly the events whose status was "failed" in delivery order, the
pending list is exactly the "pending" events in delivery order, and the
rendered output places the failures block (each full name followed by
all of its failure messages) before the pending block, both built from
those lists. -/
theorem reporter_renders_failures_in_delivery_order
    (opts : StartedOptions) (es : List SpecResult) (d : DoneResult) :
    (es.foldl specDone (jasmineStarted newConsoleReporter opts)).failedSpecs =
      es.filter (fun e => e.status == some "failed") ∧
    (es.foldl specDone (jasmineStarted newConsoleReporter opts)).pendingSpecs =
      es.filter (fun e => e.status == some "pending") ∧
    (jasmineDoneOk (es.foldl specDone (jasmineStarted newConsoleReporter opts)) d).fst.output =
      (es.foldl specDone (jasmineStarted newConsoleReporter opts)).output
        ++ failuresSection (es.filter (fun e => e.status == some "failed"))
        ++ pendingSection
             (decide (0 < (es.filter (fun e => e.status == some "failed")).length))
             (es.filter (fun e => e.status == some "pending"))
        ++ summarySection (es.foldl specDone (jasmineStarted newConsoleReporter opts)) d.totalTime
        ++ statusSection (es.foldl specDone (jasmineStarted newConsoleReporter opts))
             d.overallStatus := by
  have hf := foldl_specDone_failedSpecs es (jasmineStarted newConsoleReporter opts)
  have hp := foldl_specDone_pendingSpecs es (jasmineStarted newConsoleReporter opts)
  refine ⟨by simpa [jasmineStarted] using hf, by simpa [jasmineStarted] using hp, ?_⟩
  simp only [jasmineDoneOk]
  rw [hf, hp]
  simp [jasmineStarted]

/-- Helper: `jasmineDone` returns the failure count it held on entry;
its body never modifies `failureCount`. -/
theorem jasmineDoneOk_snd (r : ConsoleReporter) (d : DoneResult) :
    (jasmineDoneOk r d).snd = r.failureCount := rfl

/-- C1: processing a "done" relay message marks the run complete, sets
the success flag to (failure count returned by jasmineDone) === 0, and
the orchestrator exit status derived from that flag is 0 exactly when
the failure count is zero. -/
theorem done_message_success_iff_zero_failures
    (s : OrchestratorState) (m : WsMessage) (h : m.type = some "done") :
    (handleWebSocketMessage s m).testCompleted = true ∧
    (handleWebSocketMessage s m).testSuccess =
      ((jasmineDoneOk (s.consoleReporter.getD newConsoleReporter) (toDoneResult m)).snd == 0) ∧
    (handleWebSocketMessage s m).testSuccess =
      ((s.consoleReporter.getD newConsoleReporter).failureCount == 0) ∧
    exitOfSuccess (handleWebSocketMessage s m).testSuccess =
      (if (s.consoleReporter.getD newConsoleReporter).failureCount = 0 then 0 else 1) := by
  refine ⟨by simp [handleWebSocketMessage, h], by simp [handleWebSocketMessage, h], ?_, ?_⟩
  · simp [handleWebSocketMessage, h, jasmineDoneOk_snd]
  · by_cases hf : (s.consoleReporter.getD newConsoleReporter).failureCount = 0 <;>
      simp [handleWebSocketMessage, h, jasmineDoneOk_snd, exitOfSuccess, hf]

/-- Witness for C1 at the empty orchestrator state and a bare "done"
message: the run is marked complete and, the fresh reporter having zero
failures, the success flag is true and the exit status is 0. -/
theorem done_message_success_iff_zero_failures_witness :
    (handleWebSocketMessage {} { type := some "done" }).testCompleted = true ∧
    (handleWebSocketMessage {} { type := some "done" }).testSuccess =
      ((({} : OrchestratorState).consoleReporter.getD newConsoleReporter).failureCount == 0) ∧
    exitOfSuccess (handleWebSocketMessage {} { type := some "done" }).testSuccess = 0 := by
  have h := done_message_success_iff_zero_failures {} { type := some "done" } rfl
  refine ⟨h.1, h.2.2.1, ?_⟩
  rw [h.2.2.2]
  decide

/-- A spec-result event with an unrecognized status value. -/
def malformedEvent : SpecResult :=
  { fullName := some "widget renders", status := some "exploded" }

/-- Counterexample to C2: delivering an event with unknown status
"exploded" to a fresh reporter leaves the failure counter at zero and
the failed-spec list empty — the switch in specDone has no default
branch, so the event is not treated as a failed spec and no synthesized
failure entry is appended (only the spec counter advances). -/
theorem malformed_event_not_counted_as_failure :
    (specDone newConsoleReporter malformedEvent).failureCount = 0 ∧
    (specDone newConsoleReporter malformedEvent).failedSpecs = [] ∧
    (specDone newConsoleReporter malformedEvent).specCount = 1 := by
  decide

/-- C2 (amended): an event whose status is not "passed", "failed" or
"pending" (including a missing status) only increments the spec
counter; every other reporter field, the failure counter and the
failed-spec list included, is unchanged and nothing is printed. -/
theorem specDone_unknown_status_only_increments_count
    (r : ConsoleReporter) (e : SpecResult)
    (h1 : e.status ≠ some "passed") (h2 : e.status ≠ some "failed")
    (h3 : e.status ≠ some "pending") :
    specDone r e = { r with specCount := r.specCount + 1 } := by
  unfold specDone
  split <;> simp_all

/-- Witness for C2 (amended) at a fresh reporter and the concrete
malformed event. -/
theorem specDone_unknown_status_only_increments_count_witness :
    malformedEvent.status ≠ some "passed" ∧
    specDone newConsoleReporter malformedEvent =
      { newConsoleReporter with specCount := newConsoleReporter.specCount + 1 } := by
  exact ⟨by decide,
    specDone_unknown_status_only_increments_count newConsoleReporter malformedEvent
      (by decide) (by decide) (by decide)⟩

/-- Counterexample to C7: calling specDone with a null result throws a
TypeError when reading result.status (src/index.ts line 51), so the
Reporter does not return normally on a null/undefined argument. -/
theorem specDone_null_argument_throws :
    specDoneJS newConsoleReporter none =
      Except.error "TypeError: cannot read property status of null" := rfl

/-- C7 (amended): on every non-null event object — unknown status
values and missing fields included — specDone and jasmineDone return
normally, and jasmineStarted and testsAborted return normally on any
argument, null included; only a null/undefined result argument to
specDone or jasmineDone throws. -/
theorem reporter_methods_return_normally_on_nonnull
    (r : ConsoleReporter) (e : SpecResult) (d : DoneResult)
    (o : Option StartedOptions) (msg : Option String) :
    specDoneJS r (some e) = Except.ok (specDone r e) ∧
    jasmineDoneJS r (some d) = Except.ok (jasmineDoneOk r d) ∧
    jasmineStartedJS r o = Except.ok (jasmineStarted r (o.getD {})) ∧
    testsAbortedJS r msg = Except.ok (testsAborted r msg) :=
  ⟨rfl, rfl, rfl, rfl⟩

/-- C6: a relay message whose type is none of "start", "specDone" and
"done" is logged and dropped: with a reporter already present, the whole
resulting state equals the old one with only the warning appended — no
reporter method runs, no counter changes, the completion flags and the
client list are untouched, and processing stays total (non-fatal). -/
theorem unknown_message_type_logged_and_dropped
    (s : OrchestratorState) (m : WsMessage) (r : ConsoleReporter)
    (hr : s.consoleReporter = some r)
    (h1 : m.type ≠ some "start") (h2 : m.type ≠ some "specDone")
    (h3 : m.type ≠ some "done") :
    handleWebSocketMessage s m =
      { s with warnings := s.warnings ++
          ["⚠️ Unknown WebSocket message type: " ++ jsStr m.type] } := by
  rcases s with ⟨sv, sw, scl, rep, tc, ts, wn⟩
  simp only [OrchestratorState.mk.injEq] at hr ⊢
  subst hr
  unfold handleWebSocketMessage
  split <;> simp_all

/-- Witness for C6: a message of type "bogus" against a state holding a
fresh reporter only appends the warning. -/
theorem unknown_message_type_logged_and_dropped_witness :
    ({ consoleReporter := some newConsoleReporter } : OrchestratorState).consoleReporter =
      some newConsoleReporter ∧
    handleWebSocketMessage { consoleReporter := some newConsoleReporter }
        { type := some "bogus" } =
      { consoleReporter := some newConsoleReporter,
        warnings := ["⚠️ Unknown WebSocket message type: bogus"] } := by
  refine ⟨rfl, ?_⟩
  have h := unknown_message_type_logged_and_dropped
    { consoleReporter := some newConsoleReporter } { type := some "bogus" }
    newConsoleReporter rfl (by decide) (by decide) (by decide)
  simpa using h

/-- C8: cleanup is idempotent. After one cleanup the WebSocket-server
and HTTP-server references are null and the client list is empty, so a
second cleanup returns the same state and performs no release effect. -/
theorem cleanup_idempotent (s : OrchestratorState) :
    cleanup (cleanup s).fst = ((cleanup s).fst, []) ∧
    (cleanup s).fst.wss = false ∧
    (cleanup s).fst.server = false ∧
    (cleanup s).fst.wsClients = [] := by
  simp [cleanup]

/-- C9: the per-connection close handler only removes that connection
from the client list; the reporter, the completion and success flags,
the server references and the warning log are all unchanged. -/
theorem close_handler_only_removes_connection (s : OrchestratorState) (ws : Nat) :
    (handleClose s ws).wsClients = s.wsClients.filter (fun c => c != ws) ∧
    (handleClose s ws).consoleReporter = s.consoleReporter ∧
    (handleClose s ws).testCompleted = s.testCompleted ∧
    (handleClose s ws).testSuccess = s.testSuccess ∧
    (handleClose s ws).server = s.server ∧
    (handleClose s ws).wss = s.wss ∧
    (handleClose s ws).warnings = s.warnings :=
  ⟨rfl, rfl, rfl, rfl, rfl, rfl, rfl⟩

/-- C10: the relay enforces no ordering at its boundary. From a state
with no reporter yet, any message leads to a reporter existing (created
on demand); a "specDone" with no prior "start" is still counted (the
fresh reporter records it, spec counter included), and a "done" with no
prior "start" still completes the run. -/
theorem relay_forwards_without_ordering_enforcement
    (s : OrchestratorState) (m : WsMessage) (h : s.consoleReporter = none) :
    (handleWebSocketMessage s m).consoleReporter.isSome = true ∧
    (m.type = some "specDone" →
      (handleWebSocketMessage s m).consoleReporter =
        some (specDone newConsoleReporter (toSpecResult m))) ∧
    (m.type = some "done" →
      (handleWebSocketMessage s m).testCompleted = true) := by
  refine ⟨?_, fun ht => by simp [handleWebSocketMessage, ht, h],
    fun ht => by simp [handleWebSocketMessage, ht, h]⟩
  unfold handleWebSocketMessage
  split <;> simp [h]

/-- Witness for C10: a failed-spec message arriving before any "start"
on the empty state is still counted by a freshly created reporter. -/
theorem relay_forwards_without_ordering_enforcement_witness :
    ({} : OrchestratorState).consoleReporter = none ∧
    (handleWebSocketMessage {}
        { type := some "specDone", status := some "failed" }).consoleReporter =
      some (specDone newConsoleReporter
        (toSpecResult { type := some "specDone", status := some "failed" })) ∧
    ((handleWebSocketMessage {}
        { type := some "specDone", status := some "failed" }).consoleReporter.map
      (fun r => r.specCount)) = some 1 := by
  refine ⟨rfl, ?_, by decide⟩
  exact (relay_forwards_without_ordering_enforcement {}
    { type := some "specDone", status := some "failed" } rfl).2.1 rfl

/-- The invalid configuration the spec forbids: interactive (headless
off) mode together with the direct/node target. -/
def headedNodeCfg : RunConfig := { headless := false, browser := "node" }

/-- An environment where the output directory is initially absent and
discovery and build succeed. -/
def buildingEnv : RunEnv := { outDirExists := false }

/-- Counterexample to C3: starting the run with the invalid
headed-node configuration still creates the output directory and runs
the build before the combination is rejected; the rejection (exit code
1) only happens after those side effects, contradicting the claim that
no directory is created and no build is performed beforehand. -/
theorem invalid_config_builds_before_rejection :
    Effect.mkdirOut ∈ (start headedNodeCfg buildingEnv).fst ∧
    Effect.viteBuild ∈ (start headedNodeCfg buildingEnv).fst ∧
    (start headedNodeCfg buildingEnv).snd = some 1 := by
  decide

/-- C3 (amended): the headed-node combination is rejected with exit
code 1 and no server, child process or browser resource is ever
allocated on that run — but the rejection happens only after the out-dir
creation and the build, which do occur first when they can. -/
theorem invalid_config_rejected_without_execution_resources (env : RunEnv) :
    (start headedNodeCfg env).snd = some 1 ∧
    Effect.startServer ∉ (start headedNodeCfg env).fst ∧
    Effect.spawnChild ∉ (start headedNodeCfg env).fst ∧
    Effect.launchBrowser ∉ (start headedNodeCfg env).fst := by
  rcases env with ⟨ode, tff, bok, sr, bt, re, ir, ce, br⟩
  rcases tff <;> rcases bok <;> rcases ode <;>
    simp [start, preprocess, headedNodeCfg]

/-- The headless remote-browser configuration used for the fallback
scenario. -/
def headlessChromeCfg : RunConfig := { headless := true, browser := "chrome" }

/-- C4: in a headless remote run whose browser check reports the engine
unavailable, the orchestrator logs the degradation notice, selects the
child-process (node) runner, never launches a browser, and exits 0 when
the child exits 0 and 1 otherwise. -/
theorem browser_unavailable_falls_back_to_child_process
    (env : RunEnv) (c : Nat)
    (h1 : env.testFilesFound = true) (h2 : env.buildOk = true)
    (h3 : env.serverReady = true) (h4 : env.browserType = none)
    (h5 : env.runnerExists = true) (h6 : env.interrupted = false)
    (h7 : env.childExit = some c) :
    Effect.log "⚠️ Headless browser not available. Falling back to Node.js runner." ∈
      (start headlessChromeCfg env).fst ∧
    Effect.spawnChild ∈ (start headlessChromeCfg env).fst ∧
    Effect.launchBrowser ∉ (start headlessChromeCfg env).fst ∧
    (start headlessChromeCfg env).snd = some (if c = 0 then 0 else 1) := by
  rcases env with ⟨ode, tff, bok, sr, bt, re, ir, ce, br⟩
  simp only at h1 h2 h3 h4 h5 h6 h7
  subst h1 h2 h3 h4 h5 h6 h7
  rcases ode <;>
    by_cases hc : c = 0 <;>
      simp [start, preprocess, runHeadlessTests, startCleanupEffects, exitOfSuccess,
        headlessChromeCfg, hc]

/-- An environment for the fallback scenario: remote engine
unavailable, generated runner present, child process exits 0. -/
def fallbackEnv : RunEnv := { browserType := none, childExit := some 0 }

/-- Witness for C4 at a concrete environment whose child process exits
with code 0: the degradation is logged, the child runner is spawned and
the process exit code is 0. -/
theorem browser_unavailable_falls_back_to_child_process_witness :
    fallbackEnv.browserType = none ∧
    Effect.log "⚠️ Headless browser not available. Falling back to Node.js runner." ∈
      (start headlessChromeCfg fallbackEnv).fst ∧
    Effect.spawnChild ∈ (start headlessChromeCfg fallbackEnv).fst ∧
    (start headlessChromeCfg fallbackEnv).snd = some 0 := by
  have h := browser_unavailable_falls_back_to_child_process fallbackEnv 0
    rfl rfl rfl rfl rfl rfl rfl
  exact ⟨rfl, h.1, h.2.1, by simpa using h.2.2.2⟩
